import Mathlib

/-!
Shallow embedding of src/cptac/utils/pathway_utils.py.

Network responses are modelled as oracle inputs: each function that performs
an HTTP request takes the response (or the fact that the request raised) as an
explicit argument.  The two bundled reference tables are modelled as explicit
table values.  Python control effects that matter to the claims are made
explicit in the result types: a normal return, a call to sys.exit, and an
unhandled TypeError.
-/

namespace PathwayUtils

/-- How a Python call ends for the purposes of this file: a normal return,
process termination via sys.exit, or an unhandled TypeError (iterating over
None). -/
inductive PyOutcome (α : Type) where
  | ret (a : α)
  | exit
  | raisedTypeError
deriving DecidableEq, Repr

/-- The Python idiom `for x in xs: if x not in acc: acc.append(x)`:
append the elements of xs to acc, skipping those already present. -/
def dedupAppend (acc : List String) (xs : List String) : List String :=
  xs.foldl (fun a x => if x ∈ a then a else a ++ [x]) acc

/-- Outcome of the urllib3 GET in get_interacting_proteins_string: either a
response with a status and the parsed JSON entries (each entry contributing
its preferredName_A and preferredName_B fields, in response order), or the
request raised (urllib3 HTTPError). -/
inductive StringApiOutcome where
  | response (status : Nat) (entries : List (String × String))
  | exception
deriving DecidableEq, Repr

/-- pathway_utils.get_interacting_proteins_string, lines 43-92.
On an exception during the request the handler prints and calls sys.exit().
On a 200 response it collects preferredName_A and preferredName_B of each
entry without duplicates, appends the queried protein if absent, and returns
the list.  On any other status it prints a message and returns None. -/
def get_interacting_proteins_string (protein : String) (o : StringApiOutcome) :
    PyOutcome (Option (List String)) :=
  match o with
  | .exception => .exit
  | .response status entries =>
    if status = 200 then
      let interacting := entries.foldl (fun a e => dedupAppend a [e.1, e.2]) []
      let interacting :=
        if protein ∈ interacting then interacting else interacting ++ [protein]
      .ret (some interacting)
    else
      .ret none

/-- pathway_utils.get_interacting_proteins, lines 171-187, parameterized by
the values the two fetchers returned for (protein, number).  The source
checks `string_list == None and biogrid_list == None` and otherwise iterates
over both lists; iterating over None raises TypeError. -/
def get_interacting_proteins (string_list biogrid_list : Option (List String)) :
    PyOutcome (Option (List String)) :=
  if string_list = none ∧ biogrid_list = none then
    .ret none
  else
    match string_list, biogrid_list with
    | some sl, some bl => .ret (some (dedupAppend (dedupAppend [] sl) bl))
    | _, _ => .raisedTypeError

/-- The bundled BioPlex_interactionList_v4a.tsv: rows of (SymbolA, SymbolB)
pairs. -/
structure BioplexTable where
  rows : List (String × String)
deriving DecidableEq, Repr

/-- The dataframe filtering of get_interacting_proteins_bioplex, lines 205-213:
rows where SymbolA equals the protein contribute their SymbolB, rows where
SymbolB equals the protein contribute their SymbolA, and the concatenation is
deduplicated.  Python builds list(set(...)), whose order is unspecified; we
fix one deduplication order, which preserves membership and emptiness. -/
def bioplexAll (t : BioplexTable) (protein : String) : List String :=
  let A_interactions := (t.rows.filter (fun r => r.1 = protein)).map (fun r => r.2)
  let B_interactions := (t.rows.filter (fun r => r.2 = protein)).map (fun r => r.1)
  (A_interactions ++ B_interactions).dedup

/-- The recursive call get_interacting_proteins_bioplex(interaction, False)
made for secondary interactions: returns the deduplicated partner list if
non-empty, otherwise None. -/
def bioplexBase (t : BioplexTable) (protein : String) : Option (List String) :=
  let all_interactions := bioplexAll t protein
  if 0 < all_interactions.length then some all_interactions else none

/-- pathway_utils.get_interacting_proteins_bioplex, lines 200-229.  With
secondary_interactions the source iterates over each recursive result with
`for si in secondary`; if a recursive call returned None that iteration
raises TypeError, which the fold below models by an absorbing none. -/
def get_interacting_proteins_bioplex (t : BioplexTable) (protein : String)
    (secondary_interactions : Bool) : PyOutcome (Option (List String)) :=
  let all_interactions := bioplexAll t protein
  if secondary_interactions then
    let step : Option (List String) → String → Option (List String) := fun acc i =>
      match acc, bioplexBase t i with
      | some a, some l => some (a ++ l)
      | _, _ => none
    match all_interactions.foldl step (some []) with
    | none => .raisedTypeError
    | some secondary_interactions_list =>
      let all_interactions := dedupAppend all_interactions secondary_interactions_list
      if 0 < all_interactions.length then .ret (some all_interactions) else .ret none
  else
    if 0 < all_interactions.length then .ret (some all_interactions) else .ret none

/-- The bundled WikiPathwaysDataframe.tsv after read_csv plus
set_index("Unnamed: 0"): a row index of protein labels, a column list of
pathway names, and a boolean cell for each (protein, pathway) pair.  The
cell function presumes the row labels are unique, as they are in the bundled
file (pandas .loc on a duplicated label would not yield a single row). -/
structure WikiDF where
  proteins : List String
  pathways : List String
  cell : String → String → Bool

/-- pathway_utils.get_interacting_proteins_wikipathways, lines 242-260: if the
protein is in the index, select the columns whose value in the protein row is
True (a boolean column mask), keep the rows that have a True among the
selected columns, and return their index labels; otherwise the empty list. -/
def get_interacting_proteins_wikipathways (df : WikiDF) (protein : String) :
    List String :=
  if protein ∈ df.proteins then
    let selected := df.pathways.filter (fun l => df.cell protein l)
    df.proteins.filter (fun p => selected.any (fun l => df.cell p l))
  else
    []

/-- pathway_utils.get_protein_pathways, lines 270-282: if the protein is in
the index, select the columns whose value in the protein row is True and
return their names; otherwise the empty list. -/
def get_protein_pathways (df : WikiDF) (protein : String) : List String :=
  if protein ∈ df.proteins then
    df.pathways.filter (fun l => df.cell protein l)
  else
    []

/-- pathway_utils.get_proteins_in_pathway, lines 306-317: if the pathway is a
column, use it as a boolean row mask and return the index labels of the rows
where it is True; otherwise the empty list. -/
def get_proteins_in_pathway (df : WikiDF) (pathway : String) : List String :=
  if pathway ∈ df.pathways then
    df.proteins.filter (fun p => df.cell p pathway)
  else
    []

/-- pandas set_index(key) drops the column labelled key from the column list
(the bundled file has pairwise distinct column labels, so exactly one column
is dropped). -/
def setIndexColumns (cols : List String) (key : String) : List String :=
  cols.filter (fun c => c ≠ key)

/-- pathway_utils.list_pathways, lines 290-297, as a function of the column
labels read from the file: read_csv names the leading unnamed index column
"Unnamed: 0", set_index removes it, and the remaining column labels are
returned in order.  WikiDF.pathways corresponds to the result. -/
def list_pathways (rawColumns : List String) : List String :=
  setIndexColumns rawColumns "Unnamed: 0"

/-- Response of one Reactome ContentService GET in
search_reactome_pathways_with_proteins: the HTTP status; the value of
resp.json()["messages"] when the body parses as JSON carrying that key, and
none when reading it raises JSONDecodeError or KeyError; and, for a 200
response, the (displayName, stId) pairs of the parsed body. -/
structure ReactomeResp where
  status : Nat
  messages : Option String
  pathways : List (String × String)

/-- pathway_df.sort_values(by="pathway_id"): stable sort of the (id, pathway,
pathway_id) rows by ascending pathway_id. -/
def sortByPathwayId (rows : List (String × String × String)) :
    List (String × String × String) :=
  rows.mergeSort (fun a b => a.2.2 ≤ b.2.2)

/-- The per-identifier loop of search_reactome_pathways_with_proteins, lines
438-465, carrying the accumulated table rows and the identifiers warned about
so far.  A 404 whose body has no JSON "messages" raises HttpResponseError
(modelled by .error), as does any status other than 404 and 200; a 404 with
messages warns (unless quiet) and skips the identifier; a 200 appends the
sorted rows for this identifier. -/
def searchReactomeLoop (respond : String → ReactomeResp) (quiet : Bool) :
    List String → List (String × String × String) → List String →
    Except Unit (List (String × String × String) × List String)
  | [], rows, warns => .ok (rows, warns)
  | id :: rest, rows, warns =>
    let resp := respond id
    if resp.status = 404 then
      match resp.messages with
      | none => .error ()
      | some _ =>
        searchReactomeLoop respond quiet rest rows
          (if quiet then warns else warns ++ [id])
    else if resp.status ≠ 200 then
      .error ()
    else
      let newRows := sortByPathwayId (resp.pathways.map (fun p => (id, p.1, p.2)))
      searchReactomeLoop respond quiet rest (rows ++ newRows) warns

/-- pathway_utils.search_reactome_pathways_with_proteins, lines 417-468,
with the per-identifier responses as an oracle.  Returns the concatenated
table rows and the list of identifiers a ParameterWarning was issued for, or
.error when HttpResponseError is raised. -/
def search_reactome_pathways_with_proteins (respond : String → ReactomeResp)
    (ids : List String) (quiet : Bool) :
    Except Unit (List (String × String × String) × List String) :=
  searchReactomeLoop respond quiet ids [] []

/-- How a call to reactome_pathway_overlay leaves the parameter-checking
block, lines 343-366: either one of the checks raises InvalidParameterError
(before the POST to the analysis service and before any file is written), or
control proceeds to the HTTP requests. -/
inductive OverlayResult where
  | raisesInvalidParameter
  | proceedsToRequest
deriving DecidableEq, Repr

/-- Python export_path.split(chr 46)[-1]: the final piece of the path split
on dots, which is the text after the last dot, or the whole string when
there is no dot.  The split runs over the character list; str.split always
yields at least one piece, so the list default is never used. -/
def lastExtension (path : String) : String :=
  ((path.toList.splitOn '.').getLastD []).asString

/-- The parameter-checking block of pathway_utils.reactome_pathway_overlay,
lines 337-366, with ncols the number of columns of the dataframe (a Series
was already promoted to a one-column frame).  The checks run in source order;
each failed check raises InvalidParameterError.  display_col_idx none models
Python None, which is replaced by an empty string and checked no further. -/
def reactome_pathway_overlay (ncols : Nat) (export_path : Option String)
    (image_format : String) (display_col_idx : Option Int)
    (diagram_colors : String) (overlay_colors : String) (quality : Int) :
    OverlayResult :=
  match export_path with
  | none => .proceedsToRequest
  | some path =>
    let afterIdx : OverlayResult :=
      if diagram_colors ∉ (["Modern", "Standard"] : List String) then
        .raisesInvalidParameter
      else if overlay_colors ∉ (["Standard", "Strosobar", "Copper Plus"] : List String) then
        .raisesInvalidParameter
      else if ¬(1 ≤ quality ∧ quality ≤ 10) then
        .raisesInvalidParameter
      else if image_format ≠ lastExtension path then
        .raisesInvalidParameter
      else if path.take 2 = "~/" then
        .raisesInvalidParameter
      else
        .proceedsToRequest
    if image_format ∉ (["png", "gif", "svg", "jpg", "jpeg", "pptx"] : List String) then
      .raisesInvalidParameter
    else
      match display_col_idx with
      | none => afterIdx
      | some i =>
        if ¬(0 ≤ i ∧ i < (ncols : Int)) then .raisesInvalidParameter else afterIdx

/-- A concrete response oracle: every identifier gets HTTP 404 with a JSON
body carrying a "messages" field, the situation the spec mocks. -/
def respond404 : String → ReactomeResp :=
  fun _ => ReactomeResp.mk 404 (some "id not found") []

/-! ## Theorems -/

/-- C1: the claim says get_interacting_proteins returns the deduplicated
union whenever at least one fetcher returns a list.  The code instead raises
TypeError when exactly one fetcher returns None: the `for prot in list` loops
run without a None guard.  This theorem evaluates the code at the two
one-sided failures. -/
theorem get_interacting_proteins_single_none_raises :
    get_interacting_proteins none (some ["BRCA1"]) = PyOutcome.raisedTypeError ∧
    get_interacting_proteins (some ["BRCA1"]) none = PyOutcome.raisedTypeError := by
  constructor <;> rfl

/-- C2: the claim says get_interacting_proteins_string returns None when an
exception occurs during the request.  The except handler instead prints and
calls sys.exit(), terminating the process, so the call never returns None. -/
theorem get_interacting_proteins_string_exception_exits :
    get_interacting_proteins_string "EGFR" StringApiOutcome.exception = PyOutcome.exit ∧
    get_interacting_proteins_string "EGFR" StringApiOutcome.exception ≠ PyOutcome.ret none := by
  constructor <;> decide

/-- C9: on an HTTP 200 response get_interacting_proteins_string always
returns a list containing the queried protein, whether or not the response
entries mention it. -/
theorem get_interacting_proteins_string_200_contains_query (protein : String)
    (entries : List (String × String)) :
    ∃ l, get_interacting_proteins_string protein (StringApiOutcome.response 200 entries) =
        PyOutcome.ret (some l) ∧ protein ∈ l := by
  simp only [get_interacting_proteins_string, if_pos rfl, if_true]
  by_cases h : protein ∈ entries.foldl (fun a e => dedupAppend a [e.1, e.2]) []
  · exact ⟨entries.foldl (fun a e => dedupAppend a [e.1, e.2]) [], by simp [h], h⟩
  · exact ⟨entries.foldl (fun a e => dedupAppend a [e.1, e.2]) [] ++ [protein],
      by simp [h], List.mem_append_right _ (List.mem_singleton.mpr rfl)⟩

/-- C3 counterexample: the claim says the queried protein is excluded from
its own result.  On a matrix where KRAS and TP53 both belong to pathway P1,
the result for KRAS contains KRAS itself: the rows kept are those with a
True among the columns of the queried protein, and the queried protein's own
row qualifies. -/
theorem get_interacting_proteins_wikipathways_includes_self :
    "KRAS" ∈ get_interacting_proteins_wikipathways
      (WikiDF.mk ["KRAS", "TP53"] ["P1"] (fun _ _ => true)) "KRAS" := by
  decide

/-- C3 amended: for a protein present in the matrix, the result consists of
exactly the proteins of the row index that share at least one pathway with
the queried protein; the queried protein itself is included whenever it
belongs to at least one pathway. -/
theorem get_interacting_proteins_wikipathways_mem (df : WikiDF)
    (protein q : String) (h : protein ∈ df.proteins) :
    q ∈ get_interacting_proteins_wikipathways df protein ↔
      q ∈ df.proteins ∧ ∃ l ∈ df.pathways,
        df.cell protein l = true ∧ df.cell q l = true := by
  simp only [get_interacting_proteins_wikipathways, if_pos h, List.mem_filter,
    List.any_eq_true, decide_eq_true_eq]
  tauto

/-- Witness for the amended C3 theorem at a concrete matrix. -/
theorem get_interacting_proteins_wikipathways_mem_witness :
    "KRAS" ∈ (WikiDF.mk ["KRAS", "TP53"] ["P1"] (fun _ _ => true)).proteins ∧
    ("TP53" ∈ get_interacting_proteins_wikipathways
        (WikiDF.mk ["KRAS", "TP53"] ["P1"] (fun _ _ => true)) "KRAS" ↔
      "TP53" ∈ (WikiDF.mk ["KRAS", "TP53"] ["P1"] (fun _ _ => true)).proteins ∧
      ∃ l ∈ (WikiDF.mk ["KRAS", "TP53"] ["P1"] (fun _ _ => true)).pathways,
        (WikiDF.mk ["KRAS", "TP53"] ["P1"] (fun _ _ => true)).cell "KRAS" l = true ∧
        (WikiDF.mk ["KRAS", "TP53"] ["P1"] (fun _ _ => true)).cell "TP53" l = true) :=
  ⟨by decide,
    get_interacting_proteins_wikipathways_mem
      (WikiDF.mk ["KRAS", "TP53"] ["P1"] (fun _ _ => true)) "KRAS" "TP53" (by decide)⟩

/-- C6: for a protein P of the row index and a pathway L of the columns, P is
in the result of get_proteins_in_pathway for L exactly when L is in the
result of get_protein_pathways for P; both say the (P, L) cell is True. -/
theorem pathway_membership_consistent (df : WikiDF) (P L : String)
    (hP : P ∈ df.proteins) (hL : L ∈ df.pathways) :
    P ∈ get_proteins_in_pathway df L ↔ L ∈ get_protein_pathways df P := by
  simp [get_proteins_in_pathway, get_protein_pathways, hP, hL, List.mem_filter]

/-- Witness for the C6 theorem at a concrete matrix. -/
theorem pathway_membership_consistent_witness :
    "EGFR" ∈ (WikiDF.mk ["EGFR"] ["P1"] (fun _ _ => true)).proteins ∧
    "P1" ∈ (WikiDF.mk ["EGFR"] ["P1"] (fun _ _ => true)).pathways ∧
    ("EGFR" ∈ get_proteins_in_pathway (WikiDF.mk ["EGFR"] ["P1"] (fun _ _ => true)) "P1" ↔
      "P1" ∈ get_protein_pathways (WikiDF.mk ["EGFR"] ["P1"] (fun _ _ => true)) "EGFR") :=
  ⟨by decide, by decide,
    pathway_membership_consistent (WikiDF.mk ["EGFR"] ["P1"] (fun _ _ => true))
      "EGFR" "P1" (by decide) (by decide)⟩

/-- C7: on a file whose leading column is the unnamed index column (which
read_csv labels "Unnamed: 0") and whose remaining column labels do not reuse
that label, list_pathways returns exactly the remaining column names in file
order. -/
theorem list_pathways_drops_index_column (rest : List String)
    (h : "Unnamed: 0" ∉ rest) :
    list_pathways ("Unnamed: 0" :: rest) = rest := by
  simp only [list_pathways, setIndexColumns, List.filter_cons]
  have hhead : (decide ¬("Unnamed: 0" = "Unnamed: 0")) = false := by decide
  simp only [ne_eq, hhead, Bool.false_eq_true, if_false]
  exact List.filter_eq_self.mpr fun a ha => by
    simp only [decide_eq_true_eq]
    exact fun heq => h (heq ▸ ha)

/-- Witness for the C7 theorem at a concrete header. -/
theorem list_pathways_drops_index_column_witness :
    "Unnamed: 0" ∉ (["Apoptosis", "Cell Cycle"] : List String) ∧
    list_pathways ["Unnamed: 0", "Apoptosis", "Cell Cycle"] =
      ["Apoptosis", "Cell Cycle"] :=
  ⟨by decide, list_pathways_drops_index_column ["Apoptosis", "Cell Cycle"] (by decide)⟩

/-- Membership in the deduplicated partner list built by
get_interacting_proteins_bioplex: x is a partner of the protein exactly when
some table row pairs them, in either column order. -/
theorem bioplexAll_mem (t : BioplexTable) (protein x : String) :
    x ∈ bioplexAll t protein ↔ ∃ r ∈ t.rows,
      (r.1 = protein ∧ r.2 = x) ∨ (r.2 = protein ∧ r.1 = x) := by
  simp only [bioplexAll, List.mem_dedup, List.mem_append, List.mem_map,
    List.mem_filter, decide_eq_true_eq]
  constructor
  · rintro (⟨r, ⟨hr, hp⟩, hx⟩ | ⟨r, ⟨hr, hp⟩, hx⟩)
    · exact ⟨r, hr, Or.inl ⟨hp, hx⟩⟩
    · exact ⟨r, hr, Or.inr ⟨hp, hx⟩⟩
  · rintro ⟨r, hr, ⟨hp, hx⟩ | ⟨hp, hx⟩⟩
    · exact Or.inl ⟨r, ⟨hr, hp⟩, hx⟩
    · exact Or.inr ⟨r, ⟨hr, hp⟩, hx⟩

/-- C5: a protein appearing in neither column of the BioPlex table gets None;
a protein appearing in some row gets a non-empty list whose members are
exactly the partner symbols of the rows it appears in. -/
theorem get_interacting_proteins_bioplex_none_or_partners (t : BioplexTable)
    (protein : String) :
    ((∀ r ∈ t.rows, r.1 ≠ protein ∧ r.2 ≠ protein) →
      get_interacting_proteins_bioplex t protein false = PyOutcome.ret none) ∧
    ((∃ r ∈ t.rows, r.1 = protein ∨ r.2 = protein) →
      ∃ l, get_interacting_proteins_bioplex t protein false = PyOutcome.ret (some l) ∧
        l ≠ [] ∧
        ∀ x, x ∈ l ↔ ∃ r ∈ t.rows,
          (r.1 = protein ∧ r.2 = x) ∨ (r.2 = protein ∧ r.1 = x)) := by
  constructor
  · intro h
    have hnil : bioplexAll t protein = [] := by
      refine List.eq_nil_iff_forall_not_mem.mpr fun x hx => ?_
      obtain ⟨r, hr, hc⟩ := (bioplexAll_mem t protein x).mp hx
      rcases hc with ⟨h1, _⟩ | ⟨h2, _⟩
      · exact (h r hr).1 h1
      · exact (h r hr).2 h2
    simp [get_interacting_proteins_bioplex, hnil]
  · rintro ⟨r, hr, hc⟩
    have hx : ∃ x, x ∈ bioplexAll t protein := by
      rcases hc with h1 | h2
      · exact ⟨r.2, (bioplexAll_mem t protein r.2).mpr ⟨r, hr, Or.inl ⟨h1, rfl⟩⟩⟩
      · exact ⟨r.1, (bioplexAll_mem t protein r.1).mpr ⟨r, hr, Or.inr ⟨h2, rfl⟩⟩⟩
    obtain ⟨x, hxmem⟩ := hx
    have hne : bioplexAll t protein ≠ [] := List.ne_nil_of_mem hxmem
    have hlen : 0 < (bioplexAll t protein).length := List.length_pos.mpr hne
    refine ⟨bioplexAll t protein, ?_, hne, fun y => bioplexAll_mem t protein y⟩
    simp [get_interacting_proteins_bioplex, hlen]

/-- Witness for the C5 theorem: in the one-row table (A, B), the protein Z
gets None and the protein A gets a non-empty partner list. -/
theorem get_interacting_proteins_bioplex_none_or_partners_witness :
    get_interacting_proteins_bioplex (BioplexTable.mk [("A", "B")]) "Z" false =
      PyOutcome.ret none ∧
    (∃ l, get_interacting_proteins_bioplex (BioplexTable.mk [("A", "B")]) "A" false =
        PyOutcome.ret (some l) ∧ l ≠ [] ∧
        ∀ x, x ∈ l ↔ ∃ r ∈ (BioplexTable.mk [("A", "B")]).rows,
          (r.1 = "A" ∧ r.2 = x) ∨ (r.2 = "A" ∧ r.1 = x)) :=
  ⟨(get_interacting_proteins_bioplex_none_or_partners (BioplexTable.mk [("A", "B")]) "Z").1
      (by decide),
   (get_interacting_proteins_bioplex_none_or_partners (BioplexTable.mk [("A", "B")]) "A").2
      ⟨("A", "B"), by decide, Or.inl rfl⟩⟩

/-- C4 counterexample: the claim says no exception propagates for any
identifier whose query returns HTTP 404.  When the 404 body does not parse
as JSON with a "messages" field (resp.json()["messages"] raises
JSONDecodeError or KeyError), the except branch raises HttpResponseError
instead of skipping the identifier. -/
theorem search_reactome_404_unparseable_raises :
    search_reactome_pathways_with_proteins
      (fun _ => ReactomeResp.mk 404 none []) ["P04637"] false = Except.error () := by
  rfl

/-- The identifier loop on inputs whose statuses are all 200, or 404 with a
readable "messages" field: it never raises, appends the sorted rows of the
200 identifiers, and warns (unless quiet) exactly on the 404 identifiers. -/
theorem searchReactomeLoop_ok (respond : String → ReactomeResp) (quiet : Bool)
    (ids : List String) :
    ∀ (rows : List (String × String × String)) (warns : List String),
      (∀ id ∈ ids, (respond id).status = 200 ∨
        ((respond id).status = 404 ∧ (respond id).messages ≠ none)) →
      searchReactomeLoop respond quiet ids rows warns =
        Except.ok
          (rows ++ (ids.filter (fun id => (respond id).status == 200)).flatMap
              (fun id => sortByPathwayId ((respond id).pathways.map (fun p => (id, p.1, p.2)))),
           warns ++ (if quiet then [] else ids.filter (fun id => (respond id).status == 404))) := by
  induction ids with
  | nil =>
    intro rows warns _
    cases quiet <;> simp [searchReactomeLoop]
  | cons id rest ih =>
    intro rows warns h
    have hrest := fun i hi => h i (List.mem_cons_of_mem _ hi)
    rcases h id (List.mem_cons_self _ _) with h200 | ⟨h404, hmsg⟩
    · have hne : ¬(respond id).status = 404 := by omega
      have h2 : ¬((respond id).status ≠ 200) := by simp [h200]
      simp only [searchReactomeLoop]
      rw [if_neg hne, if_neg h2, ih _ _ hrest]
      cases quiet <;>
        simp [List.filter_cons, h200, List.flatMap_cons, List.append_assoc]
    · obtain ⟨m, hm⟩ := Option.ne_none_iff_exists'.mp hmsg
      simp only [searchReactomeLoop]
      rw [if_pos h404]
      simp only [hm]
      rw [ih _ _ hrest]
      cases quiet <;>
        simp [List.filter_cons, h404, List.append_assoc]

/-- C4 amended: for identifier lists whose responses are all either HTTP 200,
or HTTP 404 with a JSON body carrying a "messages" field, the function
raises nothing, skips each 404 identifier (it contributes no table rows),
continues with the remaining identifiers, and issues one warning per 404
identifier unless quiet is set. -/
theorem search_reactome_pathways_with_proteins_skips_404
    (respond : String → ReactomeResp) (ids : List String) (quiet : Bool)
    (h : ∀ id ∈ ids, (respond id).status = 200 ∨
      ((respond id).status = 404 ∧ (respond id).messages ≠ none)) :
    search_reactome_pathways_with_proteins respond ids quiet =
      Except.ok
        ((ids.filter (fun id => (respond id).status == 200)).flatMap
            (fun id => sortByPathwayId ((respond id).pathways.map (fun p => (id, p.1, p.2)))),
         if quiet then [] else ids.filter (fun id => (respond id).status == 404)) := by
  have := searchReactomeLoop_ok respond quiet ids [] [] h
  simpa [search_reactome_pathways_with_proteins] using this

/-- Witness for the amended C4 theorem: one identifier answered by a 404
with a readable message is skipped and warned about, with no error. -/
theorem search_reactome_pathways_with_proteins_skips_404_witness :
    (∀ id ∈ (["P04637"] : List String), (respond404 id).status = 200 ∨
      ((respond404 id).status = 404 ∧ (respond404 id).messages ≠ none)) ∧
    search_reactome_pathways_with_proteins respond404 ["P04637"] false =
      Except.ok
        (((["P04637"] : List String).filter (fun id => (respond404 id).status == 200)).flatMap
            (fun id => sortByPathwayId ((respond404 id).pathways.map (fun p => (id, p.1, p.2)))),
         if false then [] else (["P04637"] : List String).filter
            (fun id => (respond404 id).status == 404)) :=
  ⟨by decide,
    search_reactome_pathways_with_proteins_skips_404 respond404 ["P04637"] false (by decide)⟩

/-- C8: when export_path is given and its final dot-separated extension
differs from image_format, the parameter-checking block raises
InvalidParameterError, so control never reaches the HTTP requests or the
file write.  Each earlier check that could fire instead also raises
InvalidParameterError. -/
theorem reactome_pathway_overlay_ext_mismatch (ncols : Nat) (path : String)
    (image_format : String) (display_col_idx : Option Int)
    (diagram_colors overlay_colors : String) (quality : Int)
    (hext : image_format ≠ lastExtension path) :
    reactome_pathway_overlay ncols (some path) image_format display_col_idx
      diagram_colors overlay_colors quality = OverlayResult.raisesInvalidParameter := by
  cases display_col_idx <;>
    · simp only [reactome_pathway_overlay]
      split_ifs <;> rfl

/-- Witness for the C8 theorem: svg format against a .png export path. -/
theorem reactome_pathway_overlay_ext_mismatch_witness :
    ("svg" ≠ lastExtension "plot.png") ∧
    reactome_pathway_overlay 1 (some "plot.png") "svg" (some 0)
      "Modern" "Standard" 7 = OverlayResult.raisesInvalidParameter :=
  ⟨by decide,
    reactome_pathway_overlay_ext_mismatch 1 "plot.png" "svg" (some 0)
      "Modern" "Standard" 7 (by decide)⟩

/-- C10: when export_path is given and starts with the two characters tilde
and slash, the parameter-checking block raises InvalidParameterError rather
than expanding the home-directory reference; control never reaches the HTTP
requests or the file write. -/
theorem reactome_pathway_overlay_home_path (ncols : Nat) (path : String)
    (image_format : String) (display_col_idx : Option Int)
    (diagram_colors overlay_colors : String) (quality : Int)
    (hhome : path.take 2 = "~/") :
    reactome_pathway_overlay ncols (some path) image_format display_col_idx
      diagram_colors overlay_colors quality = OverlayResult.raisesInvalidParameter := by
  cases display_col_idx <;>
    · simp only [reactome_pathway_overlay]
      split_ifs <;> rfl

/-- Witness for the C10 theorem: an export path under the home directory. -/
theorem reactome_pathway_overlay_home_path_witness :
    ("~/plot.png".take 2 = "~/") ∧
    reactome_pathway_overlay 1 (some "~/plot.png") "png" (some 0)
      "Modern" "Standard" 7 = OverlayResult.raisesInvalidParameter :=
  ⟨by decide,
    reactome_pathway_overlay_home_path 1 "~/plot.png" "png" (some 0)
      "Modern" "Standard" 7 (by decide)⟩

end PathwayUtils
